import Mathlib

/-!
# Verification of the Iterative Migration Convergence Engine

A shallow embedding of the round-based migration loop of
`src/app_py_version/migration_executor.py` and of the three transformation
tools in `src/app_py_version/ai_tools/`, together with theorems settling the
behavioural claims about them.

External effects (the CPython `compile` builtin, subprocess backends, the
`re` regex engine where its full semantics is not needed, and the LLM agent)
are modelled as explicit parameters; everything else is translated directly
from the Python source.
-/

namespace PyUpgrader

/-! ## String search primitives

`findSubFrom pat s` is the index of the first occurrence of the character
list `pat` inside `s` (the behaviour of Python's `str.find` / the `in`
operator restricted to literal patterns). -/

def findSubFrom (pat : List Char) : List Char → Option Nat
  | [] => if pat.isPrefixOf ([] : List Char) then some 0 else none
  | c :: rest =>
    if pat.isPrefixOf (c :: rest) then some 0
    else (findSubFrom pat rest).map (· + 1)

/-- Python's substring containment test `pat in s`. -/
def containsSub (s pat : String) : Bool :=
  (findSubFrom pat.toList s.toList).isSome

/-- The whitespace characters removed by Python's `str.strip()`. -/
def isPySpace (c : Char) : Bool :=
  c = ' ' || c = '\t' || c = '\n' || c = '\r' || c = '\x0b' || c = '\x0c'

/-- Python's `str.strip()` on a character list. -/
def stripChars (s : List Char) : List Char :=
  ((s.dropWhile isPySpace).reverse.dropWhile isPySpace).reverse

/-- Python's `str.split('\n')` on a character list. -/
def splitNewline : List Char → List (List Char)
  | [] => [[]]
  | c :: rest =>
    if c = '\n' then [] :: splitNewline rest
    else
      match splitNewline rest with
      | [] => [[c]]
      | l :: ls => (c :: l) :: ls

/-- Python's `'\n'.join` on character lists. -/
def joinNewline : List (List Char) → List Char
  | [] => []
  | [l] => l
  | l :: ls => l ++ '\n' :: joinNewline ls

/-- The regex `re.search(r"```python\n(.*?)\n```", result, re.DOTALL)` used by
`MigrationExecutor._extract_code_from_result` (line 682): the match starts at
the leftmost occurrence of the literal opener and, being non-greedy, the
capture ends at the first occurrence of the literal closer after it.  If the
leftmost opener has no closer after it, no later opener has one either, so
the whole search fails. -/
def codeBlockSearch (result : String) : Option String :=
  let cs := result.toList
  match findSubFrom ("```python\n".toList) cs with
  | none => none
  | some i =>
    let rest := cs.drop (i + 10)
    match findSubFrom ("\n```".toList) rest with
    | none => none
    | some j => some (String.mk (rest.take j))

/-- The manual line scan in `_extract_code_from_result` (lines 693-700):
switch into code mode on a line whose strip starts with three backticks and
`python`, stop at a bare closing fence while in code mode, collect lines
while in code mode. -/
def resultFallbackScan : List (List Char) → Bool → List (List Char) → List (List Char)
  | [], _, acc => acc.reverse
  | l :: rest, inCode, acc =>
    if ("```python".toList).isPrefixOf (stripChars l) then resultFallbackScan rest true acc
    else if stripChars l = ("```".toList) && inCode then acc.reverse
    else if inCode then resultFallbackScan rest inCode (l :: acc)
    else resultFallbackScan rest inCode acc

/-- `MigrationExecutor._extract_code_from_result` (lines 678-705): first the
fenced-block regex, then the line scan; the text is returned as-is, with no
syntax-validity check anywhere. -/
def extractCodeFromResult (result : String) : Option String :=
  match codeBlockSearch result with
  | some code => some code
  | none =>
    let codeLines := resultFallbackScan (splitNewline result.toList) false []
    if codeLines ≠ [] then some (String.mk (joinNewline codeLines)) else none

/-! ## The syntax oracle and the tools

`Oracle.compiles` models the verdict of the CPython builtin
`compile(code, ..., 'exec')` used both by `_validate_python_code`
(lines 552-560) and by `_attempt_compilation` (line 645); `Oracle.errorText`
models the rendered error record `str(error_info)` built at lines 648-662
for a failing file (relative path, content).  A tool is modelled by the
result string its `run` method returns (the tools are total: each `_run`
is wrapped in a catch-all `except`, see the `ai_tools` section below). -/

structure Oracle where
  compiles : String → Bool
  errorText : String → String → String

/-- `MigrationExecutor._validate_python_code` (lines 552-560). -/
def validatePythonCode (o : Oracle) (code : String) : Bool :=
  o.compiles code

/-- The three registered tools, in the order of `self.tools`
(`migration_executor.py` lines 44-48): index 0 `PyUpgradeTool`,
index 1 `Python2To3Tool`, index 2 `ModernizeTool`.  Each field is the
text-to-result-string behaviour of that tool's `run` method. -/
structure Tools where
  pyupgrade : String → String
  python2to3 : String → String
  modernize : String → String

inductive ToolName
  | pyupgrade
  | python2to3
  | modernize
deriving DecidableEq, Repr

def Tools.run (tools : Tools) : ToolName → String → String
  | .pyupgrade => tools.pyupgrade
  | .python2to3 => tools.python2to3
  | .modernize => tools.modernize

/-- The working tree: relative file path and current content of every
`*.py` file under the working directory, in `rglob` order. -/
abbrev Tree := List (String × String)

/-! ## The per-file fallback chain (`_apply_fallback_tools`, lines 349-402) -/

/-- The Python 2 indicator test at line 356:
`any(pattern in current_code for pattern in [...])`. -/
def hasPython2Pattern (code : String) : Bool :=
  containsSub code "print " || containsSub code "raw_input" ||
  containsSub code "urllib2" || containsSub code "ConfigParser" ||
  containsSub code "cPickle" || containsSub code "except " ||
  containsSub code ", e:"

/-- One tool application inside `_apply_fallback_tools`: run the tool on the
current text, extract a candidate, and accept it into
`(current_code, code_modified)` only when it is non-empty (Python truthiness
of `modified_code`), differs from the current text, and passes
`_validate_python_code` (lines 359-366, 371-378, 383-390). -/
def toolStepF (o : Oracle) (tool : String → String) (s : String × Bool) : String × Bool :=
  match extractCodeFromResult (tool s.1) with
  | some m =>
    if m ≠ "" ∧ m ≠ s.1 then
      if validatePythonCode o m then (m, true) else (s.1, s.2)
    else (s.1, s.2)
  | none => (s.1, s.2)

/-- Outcome of `_apply_fallback_tools` for one file: `content = some c` means
the method wrote `c` to the file and returned `True`; `none` means no write
and `False`.  `trace` records each `tool.run` invocation together with the
text it was invoked on, in execution order. -/
structure FallbackResult where
  content : Option String
  trace : List (ToolName × String)
deriving DecidableEq

/-- `MigrationExecutor._apply_fallback_tools` (lines 349-402):
`Python2To3Tool` only when a Python 2 indicator substring occurs in the
text, then always `PyUpgradeTool`, then always `ModernizeTool`, each applied
to the accumulated text; the file is written with the accumulated text iff
some tool output was accepted. -/
def applyFallbackTools (o : Oracle) (tools : Tools) (originalCode : String) : FallbackResult :=
  let s0 : String × Bool := (originalCode, false)
  let p2 := hasPython2Pattern originalCode
  let s1 := if p2 then toolStepF o tools.python2to3 s0 else s0
  let s2 := toolStepF o tools.pyupgrade s1
  let s3 := toolStepF o tools.modernize s2
  { content := if s3.2 then some s3.1 else none
    trace := (if p2 then [(ToolName.python2to3, s0.1)] else []) ++
      [(ToolName.pyupgrade, s1.1), (ToolName.modernize, s2.1)] }

/-! ## The manual fallback (`_execute_manual_fallback`, lines 562-616) -/

/-- The body of the per-file loop at lines 589-607: run the tool on the
file content, extract, and rewrite the file when the candidate is non-empty
and differs from the original — with no syntax-validity check.  Returns the
new content and this file's contribution to `files_modified`. -/
def manualFileStep (tool : String → String) (content : String) : String × Nat :=
  match extractCodeFromResult (tool content) with
  | some m => if m ≠ "" ∧ m ≠ content then (m, 1) else (content, 0)
  | none => (content, 0)

/-- One pass of a tool over every file of the tree (lines 583-607). -/
def manualToolPass (tool : String → String) : Tree → Tree × Nat
  | [] => ([], 0)
  | (name, content) :: rest =>
    let s := manualFileStep tool content
    let r := manualToolPass tool rest
    ((name, s.1) :: r.1, s.2 + r.2)

/-- One entry of `iteration_result["tools_used"]`: the manual fallback
appends `(tool.name, files_modified)` records (lines 609-614), the agent
path appends `(tag, file.name)` records (lines 305-338). -/
inductive ToolUse
  | manual (tool : ToolName) (filesModified : Nat)
  | agentFallback (tag : String) (file : String)
deriving DecidableEq

/-- The rule-based tool sequence of `_execute_manual_fallback`
(lines 568-580): `Python2To3Tool` iff some rendered error mentions `print`
or `raw_input`; always `PyUpgradeTool`; `ModernizeTool` iff some rendered
error mentions `import`. -/
def manualToolSequence (errors : List String) : List ToolName :=
  (if errors.any (fun e => containsSub e "print" || containsSub e "raw_input")
    then [ToolName.python2to3] else []) ++
  [ToolName.pyupgrade] ++
  (if errors.any (fun e => containsSub e "import") then [ToolName.modernize] else [])

/-- `MigrationExecutor._execute_manual_fallback` (lines 562-616): apply the
selected tools in sequence over the whole tree, accumulating writes,
`fixes_applied`, and `tools_used` records (a record only when the tool
modified at least one file). -/
def executeManualFallback (tools : Tools) (errors : List String) (tree : Tree) :
    Tree × Nat × List ToolUse :=
  (manualToolSequence errors).foldl
    (fun acc tn =>
      let s := manualToolPass (tools.run tn) acc.1
      if s.2 > 0 then (s.1, acc.2.1 + s.2, acc.2.2 ++ [ToolUse.manual tn s.2])
      else (s.1, acc.2.1, acc.2.2))
    (tree, 0, [])

/-! ## The agent path (`_execute_with_langchain_agent`, lines 241-347) -/

/-- The observable outcome of one `agent_executor.invoke` call for a file:
the call raised (`err`, line 327), returned a result without an `output`
key (`noOutput`, line 313), or returned an output from which
`_extract_code_from_agent_output` recovered `extracted`
(line 274; `some ""` is possible and is falsy in Python). -/
inductive AgentResult
  | err
  | noOutput
  | output (extracted : Option String)

abbrev Agent := String → String → AgentResult

/-- The three fallback branches of the agent path (lines 303-338): run
`_apply_fallback_tools` on the file; on success count one fix and append a
tools-used record with the branch tag. -/
def agentFallbackBranch (o : Oracle) (tools : Tools) (tag name content : String) :
    String × Nat × List ToolUse :=
  match (applyFallbackTools o tools content).content with
  | some c => (c, 1, [ToolUse.agentFallback tag name])
  | none => (content, 0, [])

/-- Processing of one file by the agent path (lines 251-338): an extracted
candidate that is non-empty and differs from the original is written only
after `_validate_python_code` passes; an empty or missing extraction falls
back to the tool chain (tag `fallback_after_agent`); a missing output key
falls back (tag `fallback_no_output`); a raising call falls back
(tag `fallback_tools`). -/
def agentFileStep (o : Oracle) (tools : Tools) (agent : Agent) (name content : String) :
    String × Nat × List ToolUse :=
  match agent name content with
  | .output (some m) =>
    if m ≠ "" then
      if m ≠ content then
        if validatePythonCode o m then (m, 1, []) else (content, 0, [])
      else (content, 0, [])
    else agentFallbackBranch o tools "fallback_after_agent" name content
  | .output none => agentFallbackBranch o tools "fallback_after_agent" name content
  | .noOutput => agentFallbackBranch o tools "fallback_no_output" name content
  | .err => agentFallbackBranch o tools "fallback_tools" name content

/-- `MigrationExecutor._execute_with_langchain_agent` over all files of the
tree (lines 248-342). -/
def executeWithAgent (o : Oracle) (tools : Tools) (agent : Agent) :
    Tree → Tree × Nat × List ToolUse
  | [] => ([], 0, [])
  | (name, content) :: rest =>
    let s := agentFileStep o tools agent name content
    let r := executeWithAgent o tools agent rest
    ((name, s.1) :: r.1, s.2.1 + r.2.1, s.2.2 ++ r.2.2)

/-! ## Compilation check and the iteration loop -/

/-- Result of `_attempt_compilation` (lines 620-674). -/
structure CompilationResult where
  status : String
  errors : List String
deriving DecidableEq

/-- `MigrationExecutor._attempt_compilation` (lines 620-674): an empty tree
reports `no_python_files`; otherwise compile every file, collecting a
rendered error record per failing file; `failed` when any error, else
`success`. -/
def attemptCompilation (o : Oracle) (tree : Tree) : CompilationResult :=
  if tree = [] then { status := "no_python_files", errors := [] }
  else
    let errs := tree.filterMap
      (fun p => if o.compiles p.2 then none else some (o.errorText p.1 p.2))
    if errs ≠ [] then { status := "failed", errors := errs }
    else { status := "success", errors := [] }

/-- The fields of `iteration_result` that the claims are about
(`_execute_iteration_with_agent`, lines 178-187); the timestamps,
`compilation_attempts`, `errors_found` and `agent_steps` bookkeeping is
omitted. -/
structure IterationOutcome where
  compilationStatus : String
  fixesApplied : Nat
  toolsUsed : List ToolUse
deriving DecidableEq

/-- `MigrationExecutor._execute_iteration_with_agent` (lines 174-239):
compile first; on `success` return immediately; if no errors were collected
(the `no_python_files` case) return with zero fixes; otherwise route the
tree through the agent path when an agent executor exists, else through the
manual fallback, and recompile when at least one fix was applied (the
`successful_fixes` bookkeeping at lines 227-232 is omitted: it feeds only
the report writers). -/
def executeIteration (o : Oracle) (tools : Tools) (agent : Option Agent) (tree : Tree) :
    IterationOutcome × Tree :=
  let comp := attemptCompilation o tree
  if comp.status = "success" then
    ({ compilationStatus := "success", fixesApplied := 0, toolsUsed := [] }, tree)
  else if comp.errors = [] then
    ({ compilationStatus := comp.status, fixesApplied := 0, toolsUsed := [] }, tree)
  else
    let step :=
      match agent with
      | some a => executeWithAgent o tools a tree
      | none => executeManualFallback tools comp.errors tree
    let finalStatus :=
      if step.2.1 > 0 then (attemptCompilation o step.1).status else comp.status
    ({ compilationStatus := finalStatus, fixesApplied := step.2.1, toolsUsed := step.2.2 },
      step.1)

/-- The fields of the `results` dictionary of `execute_migration` that the
claims are about (lines 117-127). -/
structure RunResult where
  finalStatus : String
  iterations : List IterationOutcome
  tree : Tree
deriving DecidableEq

/-- The `for iteration in range(1, max_iterations + 1)` loop of
`execute_migration` (lines 133-155) with its `for ... else` clause:
`final_status` starts as `unknown`; a successful compilation sets it to
`success` and breaks; a round with `fixes_applied == 0` breaks without
setting it; only a loop that runs to completion (including an empty range)
sets `max_iterations_reached`. -/
def migrationLoop (o : Oracle) (tools : Tools) (agent : Option Agent) :
    Nat → Tree → List IterationOutcome → RunResult
  | 0, tree, acc =>
    { finalStatus := "max_iterations_reached", iterations := acc.reverse, tree := tree }
  | n + 1, tree, acc =>
    let ir := (executeIteration o tools agent tree).1
    let tree2 := (executeIteration o tools agent tree).2
    if ir.compilationStatus = "success" then
      { finalStatus := "success", iterations := (ir :: acc).reverse, tree := tree2 }
    else if ir.fixesApplied = 0 then
      { finalStatus := "unknown", iterations := (ir :: acc).reverse, tree := tree2 }
    else migrationLoop o tools agent n tree2 (ir :: acc)

/-- `MigrationExecutor.execute_migration` (lines 93-168) on a working tree
already copied from the source directory. -/
def executeMigration (o : Oracle) (tools : Tools) (agent : Option Agent)
    (maxIterations : Nat) (tree : Tree) : RunResult :=
  migrationLoop o tools agent maxIterations tree []

/-- `MigrationExecutor._finalize_migrated_files` (lines 731-764):
`shutil.copytree(working_dir, final_dir)` — the final output tree is the
working tree as-is, for every final status. -/
def finalizeMigratedFiles (tree : Tree) : Tree :=
  tree

/-- The working tree after `k` rounds of fixing, used to speak about the
trajectory of the loop. -/
def iterateTree (o : Oracle) (tools : Tools) (agent : Option Agent) :
    Nat → Tree → Tree
  | 0, tree => tree
  | k + 1, tree => iterateTree o tools agent k (executeIteration o tools agent tree).2

/-! ## The agent-output extractor (`_extract_code_from_agent_output`, lines 409-550)

The candidate texts are produced by `re` searches over the agent output
(JSON `action_input` envelopes decoded and scanned for fenced blocks,
eleven labeled fenced-block patterns, an `Observation:` pattern, the
heuristic line scan, and a final permissive fenced scan).  The regex engine
is modelled as an environment supplying, per strategy, the candidates in
the order the source tries them; the cascade and its validity gates are
translated from the source. -/

structure AgentExtractCandidates where
  jsonCandidates : List String
  labeledCandidates : List String
  observationCandidates : List String
  heuristicCandidate : Option String
  permissiveCandidate : Option String

/-- Every candidate an environment can offer, in strategy order. -/
def AgentExtractCandidates.all (k : AgentExtractCandidates) : List String :=
  k.jsonCandidates ++ k.labeledCandidates ++ k.observationCandidates ++
    k.heuristicCandidate.toList ++ k.permissiveCandidate.toList

/-- `MigrationExecutor._extract_code_from_agent_output` (lines 409-550):
each strategy returns its first candidate that is non-empty (`if code and`)
and passes `_validate_python_code`; the heuristic line-scan candidate and
the permissive candidate are gated by the validity check alone; when every
strategy fails the method returns `None`. -/
def extractCodeFromAgentOutput (valid : String → Bool) (k : AgentExtractCandidates) :
    Option String :=
  let permissivePart : Option String :=
    match k.permissiveCandidate with
    | some c => if valid c then some c else none
    | none => none
  match k.jsonCandidates.find? (fun c => (c != "") && valid c) with
  | some c => some c
  | none =>
  match k.labeledCandidates.find? (fun c => (c != "") && valid c) with
  | some c => some c
  | none =>
  match k.observationCandidates.find? (fun c => (c != "") && valid c) with
  | some c => some c
  | none =>
  match k.heuristicCandidate with
  | some c => if valid c then some c else permissivePart
  | none => permissivePart

/-! ## The transformation tools (`src/app_py_version/ai_tools/`)

Each tool's `_run` is a total function: the whole body sits inside a
catch-all `try`/`except` that renders any exception as a diagnostic
string, and every helper that shells out catches `TimeoutExpired` and any
other exception itself, returning `(code, False, error_message)`.

The external world of one call is an environment: the verdicts of
`ast.parse`, the backend-availability probes, the backend invocation
triple, the regex-based internal rewrites, and an `unexpected` field
standing for an exception thrown by any of those calls instead of a normal
return (it is what the outer `except Exception` catches). -/

/-- Python's `code.strip()` as a kernel-reducible string function. -/
def stripString (s : String) : String :=
  String.mk (stripChars s.toList)

/-- `PyUpgradeTool._run` environment (`pyupgrade_tool.py`). -/
structure PyUpgradeEnv where
  targetVersion : String
  unexpected : Option String
  parse : Option String
  available : Bool
  backend : String × Bool × String
  fallback : String × List String

def pyUpgradeInvalidInputMsg : String :=
  "âŒ Error: Invalid input. Please provide Python code as a string."

def pyUpgradeEmptyMsg : String :=
  "âŒ Error: Empty code provided."

def pyUpgradeSyntaxErrorMsg (msg : String) : String :=
  "âŒ Error: Invalid Python syntax: " ++ msg

def pyUpgradeCatchAllMsg (msg : String) : String :=
  "âŒ Error during code modernization: " ++ msg

def pyUpgradeBackendErrorMsg (err : String) : String :=
  "âŒ Error: " ++ err

/-- `PyUpgradeTool._pattern_based_fallback` (lines 148-188) given the regex
rewrites `(updated_code, changes_made)` of its two `re.sub` passes. -/
def pyUpgradeFallbackMsg (code : String) (fb : String × List String) : String :=
  if fb.2 ≠ [] then
    "ðŸ”§ Fallback Modernization Applied\n\nChanges made:\n" ++
      String.intercalate "\n" (fb.2.map (fun c => "- " ++ c)) ++
      "\n\nðŸ“ Updated Code:\n```python\n" ++ fb.1 ++ "\n```"
  else
    "ðŸ” Fallback Analysis Complete - No changes needed\n\n" ++
      "The code appears to be using modern Python patterns.\n\n" ++
      "ðŸ“ Original code:\n```python\n" ++ code ++ "\n```"

def pyUpgradeSuccessMsg (tv updated : String) : String :=
  "ï¿½ PyUpgrade Modernization Complete\n\nTarget Version: Python " ++ tv ++
    "\n\nðŸ“ Modernized Code:\n```python\n" ++ updated ++
    "\n```\n\nâœ… Code has been successfully modernized using pyupgrade tool."

def pyUpgradeNoChangeMsg (tv code : String) : String :=
  "ï¿½ PyUpgrade Analysis Complete - No changes needed\n\nTarget Version: Python " ++ tv ++
    "\n\nThe code is already using modern Python " ++ tv ++
    " syntax patterns.\n\nðŸ“ Original code:\n```python\n" ++ code ++ "\n```"

/-- `PyUpgradeTool._run` (lines 190-243): input validation, `ast.parse`
gate, availability probe with transparent switch to the pattern-based
fallback, backend invocation with its error triple, and the catch-all. -/
def pyUpgradeRun (env : PyUpgradeEnv) (code : String) : String :=
  if code = "" then pyUpgradeInvalidInputMsg
  else
    let code := stripString code
    if code = "" then pyUpgradeEmptyMsg
    else
      match env.unexpected with
      | some m => pyUpgradeCatchAllMsg m
      | none =>
        match env.parse with
        | some m => pyUpgradeSyntaxErrorMsg m
        | none =>
          if !env.available then pyUpgradeFallbackMsg code env.fallback
          else
            let (updated, changed, err) := env.backend
            if err ≠ "" then pyUpgradeBackendErrorMsg err
            else if changed then pyUpgradeSuccessMsg env.targetVersion updated
            else pyUpgradeNoChangeMsg env.targetVersion code

/-- `Python2To3Tool._run` environment (`python2to3_tool.py`). -/
structure Python2To3Env where
  unexpected : Option String
  detected : List String
  lib2to3 : String × Bool × String
  patternMigration : String × List String

def python2To3InvalidInputMsg : String :=
  "âŒ Error: Invalid input. Please provide Python code as a string."

def python2To3EmptyMsg : String :=
  "âŒ Error: Empty code provided."

def python2To3CatchAllMsg (msg : String) : String :=
  "âŒ Error during migration: " ++ msg

def python2To3AlreadyPy3Msg (code : String) : String :=
  "â„¹ï¸ Python 2 to 3 Migration Analysis\n\n" ++
    "The provided code appears to already be Python 3 compatible.\n" ++
    "No Python 2 specific patterns detected.\n\nðŸ“ Original code:\n```python\n" ++
    code ++ "\n```\n\nâœ… No migration needed - code is already Python 3 compatible!"

/-- Renders `"\n".join(f"{i+1}. {change}" for i, change in enumerate(...))`. -/
def numberedChanges (start : Nat) : List String → List String
  | [] => []
  | c :: rest => (toString start ++ ". " ++ c) :: numberedChanges (start + 1) rest

def python2To3PatternCompleteMsg (detected : List String) (code : String)
    (changes : List String) : String :=
  "ðŸš€ Python 2 to 3 Migration Complete\n\nIssues Fixed: " ++
    toString changes.length ++ "\nPython 2 Indicators Found: " ++
    String.intercalate ", " detected ++ "\n\nðŸ“ Migrated Code:\n```python\n" ++
    code ++ "\n```\n\nðŸ”§ Migration Changes Applied:\n\n" ++
    String.intercalate "\n" (numberedChanges 1 changes) ++
    "\n\nâš ï¸  IMPORTANT: After migration, please:\n1. Test your code thoroughly\n" ++
    "2. Check for any remaining compatibility issues\n" ++
    "3. Update your shebang line to use python3\n" ++
    "4. Update your requirements.txt for Python 3 compatible packages"

def python2To3AnalysisMsg (detected : List String) (code : String) : String :=
  "ðŸ” Python 2 to 3 Migration Analysis Complete\n\n" ++
    "No automatic fixes could be applied, but Python 2 patterns were detected: " ++
    String.intercalate ", " detected ++ "\n\nðŸ“ Original code:\n```python\n" ++
    code ++ "\n```\n\nâš ï¸  Manual review may be needed for complete migration."

def python2To3Lib2to3Msg (detected : List String) (migrated : String) : String :=
  "ðŸš€ Python 2 to 3 Migration Complete (using lib2to3)\n\nPython 2 Indicators Found: " ++
    String.intercalate ", " detected ++ "\n\nðŸ“ Migrated Code:\n```python\n" ++
    migrated ++ "\n```\n\nâœ… Code has been successfully migrated using the lib2to3 " ++
    "refactoring tool.\n\nâš ï¸  IMPORTANT: After migration, please:\n" ++
    "1. Test your code thoroughly\n2. Check for any remaining compatibility issues\n" ++
    "3. Update your shebang line to use python3\n" ++
    "4. Update your requirements.txt for Python 3 compatible packages"

/-- `Python2To3Tool._run` (lines 158-247): input validation, pattern
detection (no patterns means no migration), `lib2to3` attempt, pattern-based
migration when `lib2to3` failed or made no change, and the catch-all.
A missing `lib2to3` backend surfaces as the error triple
`(code, False, "lib2to3 not available")` and so falls into the
pattern-based branch. -/
def python2To3Run (env : Python2To3Env) (code : String) : String :=
  if code = "" then python2To3InvalidInputMsg
  else
    let code := stripString code
    if code = "" then python2To3EmptyMsg
    else
      match env.unexpected with
      | some m => python2To3CatchAllMsg m
      | none =>
        if env.detected = [] then python2To3AlreadyPy3Msg code
        else
          let (migrated, wasChanged, err) := env.lib2to3
          if !wasChanged || err ≠ "" then
            let (pmCode, pmChanges) := env.patternMigration
            if pmChanges ≠ [] then python2To3PatternCompleteMsg env.detected pmCode pmChanges
            else python2To3AnalysisMsg env.detected code
          else python2To3Lib2to3Msg env.detected migrated

/-- `ModernizeTool._run` environment (`modernize_tool.py`). -/
structure ModernizeEnv where
  unexpected : Option String
  issues : List String
  available : Bool
  backend : String × Bool × String
  patternResult : String × List String

def modernizeInvalidInputMsg : String :=
  "âŒ Error: Invalid input. Please provide Python code as a string."

def modernizeEmptyMsg : String :=
  "âŒ Error: Empty code provided."

def modernizeCatchAllMsg (msg : String) : String :=
  "âŒ Error during modernization: " ++ msg

def modernizePatternAppliedMsg (issues : List String) (code : String)
    (changes : List String) : String :=
  "ðŸ”§ Python 2/3 Compatibility Applied (Pattern-based)\n\nCompatibility Issues Detected: " ++
    String.intercalate ", " issues ++ "\n\nðŸ“ Modernized Code:\n```python\n" ++
    code ++ "\n```\n\nðŸ”§ Changes Applied:\n" ++
    String.intercalate "\n" (changes.map (fun c => "- " ++ c)) ++
    "\n\nâœ… Code is now compatible with both Python 2.7+ and Python 3.x"

def modernizeAnalysisNoFixMsg (code : String) : String :=
  "ðŸ” Python 2/3 Compatibility Analysis Complete\n\nNo automatic fixes could be applied." ++
    "\n\nðŸ“ Original code:\n```python\n" ++ code ++
    "\n```\n\nâ„¹ï¸  Code appears to already be compatible with both Python versions."

def modernizeSuccessMsg (issues : List String) (updated : String) : String :=
  "ðŸš€ Python 2/3 Compatibility Applied (using python-modernize)\n\n" ++
    "Compatibility Issues Detected: " ++ String.intercalate ", " issues ++
    "\n\nðŸ“ Modernized Code:\n```python\n" ++ updated ++
    "\n```\n\nâœ… Code has been successfully modernized using the python-modernize tool.\n" ++
    "Code is now compatible with both Python 2.7+ and Python 3.x"

def modernizeNoChangeMsg (code : String) : String :=
  "ðŸ” Python 2/3 Compatibility Analysis Complete\n\n" ++
    "No changes needed - code is already compatible.\n\nðŸ“ Original code:\n```python\n" ++
    code ++ "\n```\n\nâœ… Code is already compatible with both Python 2.7+ and Python 3.x"

def modernizeFallbackAppliedMsg (issues : List String) (code : String)
    (changes : List String) : String :=
  "ðŸ”§ Python 2/3 Compatibility Applied (Pattern-based Fallback)\n\n" ++
    "Compatibility Issues Detected: " ++ String.intercalate ", " issues ++
    "\n\nðŸ“ Modernized Code:\n```python\n" ++ code ++
    "\n```\n\nðŸ”§ Changes Applied:\n" ++
    String.intercalate "\n" (changes.map (fun c => "- " ++ c)) ++
    "\n\nâœ… Code should now be more compatible with both Python 2.7+ and Python 3.x\n" ++
    "âš ï¸  For best results, install python-modernize: pip install modernize"

def modernizeFallbackNoChangeMsg (code : String) : String :=
  "ðŸ” Python 2/3 Compatibility Analysis Complete\n\nðŸ“ Original code:\n```python\n" ++
    code ++ "\n```\n\nâ„¹ï¸  Code appears to already be compatible or no automatic " ++
    "fixes available.\nðŸ’¡ For comprehensive modernization, install python-modernize: " ++
    "pip install modernize"

/-- `ModernizeTool._run` (lines 198-305): input validation, availability
probe, backend invocation with a pattern-based retry on backend error, the
pattern-based fallback when the backend is absent, and the catch-all. -/
def modernizeRun (env : ModernizeEnv) (code : String) : String :=
  if code = "" then modernizeInvalidInputMsg
  else
    let code := stripString code
    if code = "" then modernizeEmptyMsg
    else
      match env.unexpected with
      | some m => modernizeCatchAllMsg m
      | none =>
        if env.available then
          let (updated, changed, err) := env.backend
          if err ≠ "" then
            let (pmCode, pmChanges) := env.patternResult
            if pmChanges ≠ [] then modernizePatternAppliedMsg env.issues pmCode pmChanges
            else modernizeAnalysisNoFixMsg code
          else if changed then modernizeSuccessMsg env.issues updated
          else modernizeNoChangeMsg code
        else
          let (pmCode, pmChanges) := env.patternResult
          if pmChanges ≠ [] then modernizeFallbackAppliedMsg env.issues pmCode pmChanges
          else modernizeFallbackNoChangeMsg code

/-! ## Sample instances of the external oracle and tools

`parenBalanced` is a concrete stand-in for the verdicts of the CPython
`compile` builtin on the tiny programs used below: CPython rejects every
program with unbalanced parentheses, so a string on which `parenBalanced`
is `false` (such as `"x("`) is rejected by the real oracle as well, and the
balanced one-liners used here (`"x = 1"`, `"(ok)"`) are accepted by it. -/

def parenBalancedAux : List Char → Nat → Bool
  | [], 0 => true
  | [], _ + 1 => false
  | c :: rest, d =>
    if c = '(' then parenBalancedAux rest (d + 1)
    else if c = ')' then
      match d with
      | 0 => false
      | e + 1 => parenBalancedAux rest e
    else parenBalancedAux rest d

def parenBalanced (s : String) : Bool :=
  parenBalancedAux s.toList 0

/-- A concrete oracle: `compile` verdicts by parenthesis balance, error
records rendered as `syntax error in <path>` (a rendering that mentions
neither `print`, `raw_input` nor `import`). -/
def parenOracle : Oracle :=
  { compiles := parenBalanced, errorText := fun n _ => "syntax error in " ++ n }

/-- Tools whose result strings contain no extractable code at all. -/
def silentTools : Tools :=
  { pyupgrade := fun _ => "", python2to3 := fun _ => "", modernize := fun _ => "" }

/-- A tool whose result embeds a syntactically invalid payload. -/
def badCodeTools : Tools :=
  { pyupgrade := fun _ => "```python\nx(\n```"
    python2to3 := fun _ => ""
    modernize := fun _ => "" }

/-- Tools whose chain run accepts one validated fix. -/
def okFixTools : Tools :=
  { pyupgrade := fun _ => "no block here"
    python2to3 := fun _ => ""
    modernize := fun _ => "```python\n(ok)\n```" }

/-- A concrete validity verdict and candidate environment for the agent
extractor. -/
def sampleValid : String → Bool := fun s => s == "ok"

def sampleCands : AgentExtractCandidates :=
  { jsonCandidates := ["", "bad", "ok"]
    labeledCandidates := ["worse"]
    observationCandidates := []
    heuristicCandidate := none
    permissiveCandidate := none }

def proseCands : AgentExtractCandidates :=
  { jsonCandidates := ["bad"]
    labeledCandidates := []
    observationCandidates := ["also bad"]
    heuristicCandidate := some "still bad"
    permissiveCandidate := some "bad too" }

/-- A tool that echoes its input inside a fenced block, so that the
extracted text equals the input. -/
def echoTool : String → String := fun c => "```python\n" ++ c ++ "\n```"

/-- An agent whose extraction result is exactly the current file content. -/
def echoAgent : Agent := fun _ c => AgentResult.output (some c)

/-- A tool whose output grows the text each round while staying invalid, so
that every round applies a fix without ever reaching `success`. -/
def growTools : Tools :=
  { pyupgrade := fun c => "```python\n" ++ c ++ "!\n```"
    python2to3 := fun _ => ""
    modernize := fun _ => "" }

/-- The agent backend raising an exception on every call. -/
def raisingAgent : Agent := fun _ _ => AgentResult.err

/-- An oracle and tools under which the two degraded modes diverge:
`ModernizeTool` carries the only usable fix, which the per-file fallback
chain always attempts but the manual fallback only attempts when an error
text mentions `import`. -/
def divergeOracle : Oracle :=
  { compiles := fun s => s = "fixed", errorText := fun n _ => "bad file " ++ n }

def divergeTools : Tools :=
  { pyupgrade := fun _ => "analysis complete"
    python2to3 := fun _ => ""
    modernize := fun _ => "```python\nfixed\n```" }

/-- Concrete environments for the C9 witness. -/
def pyEnvTimeout : PyUpgradeEnv :=
  { targetVersion := "3.11", unexpected := none, parse := none, available := true
    backend := ("x = 1", false, "pyupgrade command timed out"), fallback := ("", []) }

def pyEnvNoBackend : PyUpgradeEnv :=
  { targetVersion := "3.11", unexpected := none, parse := none, available := false
    backend := ("", false, ""), fallback := ("y = 2", ["Converted .format() to f-string"]) }

def p23EnvNoLib : Python2To3Env :=
  { unexpected := none, detected := ["print_statement"]
    lib2to3 := ("print 1", false, "lib2to3 not available")
    patternMigration := ("print(1)", ["Converted print statement to print() function"]) }

def modEnvCrash : ModernizeEnv :=
  { unexpected := some "boom", issues := [], available := true
    backend := ("", false, ""), patternResult := ("", []) }

/-! ## Helper lemmas about the fallback chain -/

/-- Each accepted update inside `_apply_fallback_tools` passes
`_validate_python_code`, so the flag `code_modified` implies the current
text is validated. -/
theorem toolStepF_valid (o : Oracle) (tool : String → String) (s : String × Bool)
    (h : s.2 = true → validatePythonCode o s.1 = true) :
    (toolStepF o tool s).2 = true → validatePythonCode o (toolStepF o tool s).1 = true := by
  unfold toolStepF
  cases hE : extractCodeFromResult (tool s.1) with
  | none => simp only [hE]; exact h
  | some m =>
    simp only [hE]
    by_cases h1 : m ≠ "" ∧ m ≠ s.1
    · by_cases h2 : validatePythonCode o m = true
      · simp [h1, h2]
      · simp only [if_pos h1, if_neg h2]
        exact h
    · simp only [if_neg h1]
      exact h

/-- The written content of `_apply_fallback_tools` always passes the
validity check. -/
theorem applyFallbackTools_validates (o : Oracle) (tools : Tools) (code c : String)
    (h : (applyFallbackTools o tools code).content = some c) :
    validatePythonCode o c = true := by
  unfold applyFallbackTools at h
  simp only at h
  have v1 : (if hasPython2Pattern code then toolStepF o tools.python2to3 (code, false)
      else (code, false)).2 = true →
      validatePythonCode o (if hasPython2Pattern code then
        toolStepF o tools.python2to3 (code, false) else (code, false)).1 = true := by
    by_cases hp : hasPython2Pattern code
    · simpa [hp] using toolStepF_valid o tools.python2to3 (code, false) (by simp)
    · simp [hp]
  have v2 := toolStepF_valid o tools.pyupgrade _ v1
  have v3 := toolStepF_valid o tools.modernize _ v2
  by_cases h3 : (toolStepF o tools.modernize (toolStepF o tools.pyupgrade
      (if hasPython2Pattern code then toolStepF o tools.python2to3 (code, false)
        else (code, false)))).2 = true
  · rw [if_pos h3] at h
    cases h
    exact v3 h3
  · rw [if_neg h3] at h
    cases h

/-! ## C1 — validation before write-back on every fixing path -/

/-- C1 counterexample: on the manual fallback path (no agent), the file
`a.py` is rewritten with the extracted tool output `x(` — a text failing
the syntax-validity check (`compile` rejects the unbalanced parenthesis) —
because `_execute_manual_fallback` accepts any extracted text that differs
from the input without consulting `_validate_python_code` (the function
does not even receive the oracle). -/
theorem c1_manual_fallback_writes_invalid_text :
    executeManualFallback badCodeTools ["e1"] [("a.py", "bad")] =
      ([("a.py", "x(")], 1, [ToolUse.manual ToolName.pyupgrade 1]) ∧
    parenBalanced "x(" = false := by
  constructor
  · decide
  · decide

/-- The content produced by an agent-path fallback branch is the previous
content or validated text. -/
theorem agentFallbackBranch_valid (o : Oracle) (tools : Tools) (tag name content : String) :
    (agentFallbackBranch o tools tag name content).1 = content ∨
      validatePythonCode o (agentFallbackBranch o tools tag name content).1 = true := by
  unfold agentFallbackBranch
  cases hc : (applyFallbackTools o tools content).content with
  | none =>
    simp only [hc]
    left
    trivial
  | some c =>
    simp only [hc]
    exact Or.inr (applyFallbackTools_validates o tools content c hc)

/-- The content produced by one agent-path file step is the previous
content or validated text. -/
theorem agentFileStep_valid (o : Oracle) (tools : Tools) (agent : Agent)
    (name content : String) :
    (agentFileStep o tools agent name content).1 = content ∨
      validatePythonCode o (agentFileStep o tools agent name content).1 = true := by
  cases hA : agent name content with
  | err =>
    simp only [agentFileStep, hA]
    exact agentFallbackBranch_valid o tools "fallback_tools" name content
  | noOutput =>
    simp only [agentFileStep, hA]
    exact agentFallbackBranch_valid o tools "fallback_no_output" name content
  | output e =>
    cases e with
    | none =>
      simp only [agentFileStep, hA]
      exact agentFallbackBranch_valid o tools "fallback_after_agent" name content
    | some m =>
      simp only [agentFileStep, hA]
      by_cases h1 : m ≠ ""
      · by_cases h2 : m ≠ content
        · by_cases h3 : validatePythonCode o m = true
          · simp only [if_pos h1, if_pos h2, if_pos h3]
            exact Or.inr h3
          · simp only [if_pos h1, if_pos h2, if_neg h3]
            left
            trivial
        · simp only [if_pos h1, if_neg h2]
          left
          trivial
      · simp only [if_neg h1]
        exact agentFallbackBranch_valid o tools "fallback_after_agent" name content

/-- C1 (amended): on the per-file fallback chain every written text passes
the syntax-validity check, and on the agent path every file either keeps
its previous content or receives validated content; the manual fallback
used when no agent is configured performs no such check. -/
theorem c1_agent_and_chain_validate_before_write :
    (∀ (o : Oracle) (tools : Tools) (code c : String),
      (applyFallbackTools o tools code).content = some c →
        validatePythonCode o c = true) ∧
    (∀ (o : Oracle) (tools : Tools) (agent : Agent) (tree : Tree),
      List.Forall₂ (fun old new : String × String =>
          new.1 = old.1 ∧ (new.2 = old.2 ∨ validatePythonCode o new.2 = true))
        tree (executeWithAgent o tools agent tree).1) := by
  constructor
  · exact applyFallbackTools_validates
  · intro o tools agent tree
    induction tree with
    | nil => simp [executeWithAgent]
    | cons p rest ih =>
      obtain ⟨name, content⟩ := p
      exact List.Forall₂.cons ⟨rfl, agentFileStep_valid o tools agent name content⟩ ih

/-- C1 witness: a concrete chain run whose write is validated. -/
theorem c1_witness :
    (applyFallbackTools parenOracle okFixTools "x(").content = some "(ok)" ∧
    validatePythonCode parenOracle "(ok)" = true :=
  ⟨by decide,
   c1_agent_and_chain_validate_before_write.1 parenOracle okFixTools "x(" "(ok)" (by decide)⟩

/-! ## C2 — which tools the fallback chain attempts, and in what order -/

/-- C2 counterexample: for a text containing none of the Python 2 indicator
substrings, `_apply_fallback_tools` invokes only `PyUpgradeTool` and
`ModernizeTool`; `Python2To3Tool` (the DialectConverter) is not attempted,
so the chain does not attempt all three tools on every input. -/
theorem c2_chain_skips_python2to3 :
    ((applyFallbackTools parenOracle silentTools "x = 1").trace.map Prod.fst) =
      [ToolName.pyupgrade, ToolName.modernize] ∧
    ((applyFallbackTools parenOracle silentTools "x = 1").trace.map Prod.fst) ≠
      [ToolName.python2to3, ToolName.pyupgrade, ToolName.modernize] := by
  constructor
  · decide
  · decide

/-- C2 (amended): the chain invokes `Python2To3Tool` iff one of the seven
Python 2 indicator substrings occurs in the input, then always
`PyUpgradeTool` and then always `ModernizeTool` (no short-circuit), each
tool receiving the accumulated text of the previous accept-if-valid
steps. -/
theorem c2_chain_order_and_accumulation :
    ∀ (o : Oracle) (tools : Tools) (code : String),
      (hasPython2Pattern code = true →
        (applyFallbackTools o tools code).trace =
          [(ToolName.python2to3, code),
           (ToolName.pyupgrade, (toolStepF o tools.python2to3 (code, false)).1),
           (ToolName.modernize, (toolStepF o tools.pyupgrade
             (toolStepF o tools.python2to3 (code, false))).1)]) ∧
      (hasPython2Pattern code = false →
        (applyFallbackTools o tools code).trace =
          [(ToolName.pyupgrade, code),
           (ToolName.modernize, (toolStepF o tools.pyupgrade (code, false)).1)]) := by
  intro o tools code
  constructor
  · intro hp
    simp [applyFallbackTools, hp]
  · intro hp
    simp [applyFallbackTools, hp]

/-- C2 witness: on an input that does contain a Python 2 indicator, all
three tools run in the fixed order, on the accumulated text. -/
theorem c2_witness :
    hasPython2Pattern "print 1" = true ∧
    (applyFallbackTools parenOracle silentTools "print 1").trace =
      [(ToolName.python2to3, "print 1"), (ToolName.pyupgrade, "print 1"),
       (ToolName.modernize, "print 1")] := by
  refine ⟨by decide, ?_⟩
  rw [(c2_chain_order_and_accumulation parenOracle silentTools "print 1").1 (by decide)]
  decide

/-! ## C3 — the result-text extractor and the validity gate -/

/-- C3 counterexample: `_extract_code_from_result` returns the fenced-block
payload `x(` as-is; `x(` fails the syntax-validity check (CPython `compile`
rejects the unbalanced parenthesis, as the `parenBalanced` verdict
records), so the tool-result extractor can return text that fails the
check — it performs no validation at all. -/
theorem c3_result_extractor_returns_invalid_text :
    extractCodeFromResult "```python\nx(\n```" = some "x(" ∧
    parenBalanced "x(" = false := by
  constructor
  · decide
  · decide

/-- C3 (amended): the agent-output extractor
(`_extract_code_from_agent_output`) validates every candidate before
returning it and returns `None` when no candidate passes; the tool-result
extractor (`_extract_code_from_result`) performs no validity check, and on
input with no extractable code (arbitrary prose) returns `None`. -/
theorem c3_agent_extractor_validates :
    (∀ (valid : String → Bool) (k : AgentExtractCandidates) (t : String),
      extractCodeFromAgentOutput valid k = some t → valid t = true) ∧
    (∀ (valid : String → Bool) (k : AgentExtractCandidates),
      (∀ c ∈ k.all, valid c = false) → extractCodeFromAgentOutput valid k = none) ∧
    extractCodeFromResult "This is prose. It explains the fix in words only." = none := by
  refine ⟨?_, ?_, by decide⟩
  · intro valid k t h
    unfold extractCodeFromAgentOutput at h
    cases hJ : k.jsonCandidates.find? (fun c => (c != "") && valid c) with
    | some c =>
      simp only [hJ] at h
      cases h
      have := List.find?_some hJ
      simp only [Bool.and_eq_true] at this
      exact this.2
    | none =>
    simp only [hJ] at h
    cases hL : k.labeledCandidates.find? (fun c => (c != "") && valid c) with
    | some c =>
      simp only [hL] at h
      cases h
      have := List.find?_some hL
      simp only [Bool.and_eq_true] at this
      exact this.2
    | none =>
    simp only [hL] at h
    cases hO : k.observationCandidates.find? (fun c => (c != "") && valid c) with
    | some c =>
      simp only [hO] at h
      cases h
      have := List.find?_some hO
      simp only [Bool.and_eq_true] at this
      exact this.2
    | none =>
    simp only [hO] at h
    have hPerm : ∀ (x : Option String),
        (match x with
          | some c => if valid c then some c else none
          | none => none) = some t → valid t = true := by
      intro x hx
      cases x with
      | none => simp at hx
      | some c =>
        by_cases hv : valid c = true
        · simp only [if_pos hv] at hx
          cases hx
          exact hv
        · simp only [if_neg hv] at hx
          simp at hx
    cases hH : k.heuristicCandidate with
    | some c =>
      simp only [hH] at h
      by_cases hv : valid c = true
      · simp only [if_pos hv] at h
        cases h
        exact hv
      · simp only [if_neg hv] at h
        exact hPerm _ h
    | none =>
      simp only [hH] at h
      exact hPerm _ h
  · intro valid k hall
    have hmem : ∀ {c : String} {l : List String}, (∀ x ∈ l, x ∈ k.all) →
        c ∈ l → valid c = false := fun hsub hc => hall _ (hsub _ hc)
    unfold extractCodeFromAgentOutput
    have hJ : k.jsonCandidates.find? (fun c => (c != "") && valid c) = none := by
      rw [List.find?_eq_none]
      intro x hx
      simp [hall x (by simp [AgentExtractCandidates.all, hx])]
    have hL : k.labeledCandidates.find? (fun c => (c != "") && valid c) = none := by
      rw [List.find?_eq_none]
      intro x hx
      simp [hall x (by simp [AgentExtractCandidates.all, hx])]
    have hO : k.observationCandidates.find? (fun c => (c != "") && valid c) = none := by
      rw [List.find?_eq_none]
      intro x hx
      simp [hall x (by simp [AgentExtractCandidates.all, hx])]
    simp only [hJ, hL, hO]
    have hPermVal : ∀ c ∈ k.permissiveCandidate, valid c = false := by
      intro c hc
      exact hall c (by simp [AgentExtractCandidates.all, Option.mem_def.mp hc])
    cases hH : k.heuristicCandidate with
    | some c =>
      have hv : valid c = false :=
        hall c (by simp [AgentExtractCandidates.all, hH])
      simp only [hv, if_false]
      cases hP : k.permissiveCandidate with
      | some d =>
        have hvd : valid d = false :=
          hall d (by simp [AgentExtractCandidates.all, hP])
        simp [hvd]
      | none => simp
    | none =>
      cases hP : k.permissiveCandidate with
      | some d =>
        have hvd : valid d = false :=
          hall d (by simp [AgentExtractCandidates.all, hP])
        simp [hvd]
      | none => simp

/-- C3 witness: a returned candidate is validated, and an environment with
no valid candidate yields `None`. -/
theorem c3_witness :
    extractCodeFromAgentOutput sampleValid sampleCands = some "ok" ∧
    sampleValid "ok" = true ∧
    extractCodeFromAgentOutput sampleValid proseCands = none :=
  ⟨by decide,
   c3_agent_extractor_validates.1 sampleValid sampleCands "ok" (by decide),
   c3_agent_extractor_validates.2.1 sampleValid proseCands (by decide)⟩

/-! ## C8 — no-op tool outcomes never write and never count -/

/-- C8: on every fixing path, a tool outcome whose extracted text equals
the input text neither rewrites the file nor counts towards
`fixes_applied`: the chain step leaves `(current_code, code_modified)`
untouched, the manual per-file step returns the input with count 0, and the
agent path leaves the file untouched with no fix and no trace entry (the
agent case needs the text to be non-empty, since in Python an empty
extraction is falsy and counts as *no usable code*, not as a modification,
and triggers the fallback chain instead). -/
theorem c8_noop_outcome_never_writes :
    (∀ (o : Oracle) (tool : String → String) (s : String × Bool),
      extractCodeFromResult (tool s.1) = some s.1 → toolStepF o tool s = s) ∧
    (∀ (tool : String → String) (content : String),
      extractCodeFromResult (tool content) = some content →
        manualFileStep tool content = (content, 0)) ∧
    (∀ (o : Oracle) (tools : Tools) (agent : Agent) (name content : String),
      agent name content = AgentResult.output (some content) → content ≠ "" →
        agentFileStep o tools agent name content = (content, 0, [])) := by
  refine ⟨?_, ?_, ?_⟩
  · intro o tool s h
    unfold toolStepF
    simp only [h]
    have : ¬(s.1 ≠ "" ∧ s.1 ≠ s.1) := by simp
    simp only [if_neg this]
  · intro tool content h
    unfold manualFileStep
    simp only [h]
    have : ¬(content ≠ "" ∧ content ≠ content) := by simp
    simp only [if_neg this]
  · intro o tools agent name content hA hne
    simp only [agentFileStep, hA]
    have h2 : ¬content ≠ content := by simp
    simp only [if_pos hne, if_neg h2]

/-- C8 witness: a concrete no-op outcome on each path. -/
theorem c8_witness :
    extractCodeFromResult (echoTool "x = 1") = some "x = 1" ∧
    manualFileStep echoTool "x = 1" = ("x = 1", 0) ∧
    agentFileStep parenOracle silentTools echoAgent "a.py" "x = 1" = ("x = 1", 0, []) :=
  ⟨by decide,
   c8_noop_outcome_never_writes.2.1 echoTool "x = 1" (by decide),
   c8_noop_outcome_never_writes.2.2 parenOracle silentTools echoAgent "a.py" "x = 1"
     rfl (by decide)⟩

/-! ## C10 — empty trees report `no_python_files` and never succeed -/

/-- C10: for an empty working tree the per-round check returns the distinct
status `no_python_files` (not `success`), and a run over an empty tree
never terminates with final status `success`, for any round budget (the
loop either breaks in its first round with the initial status `unknown`, or
— with a zero budget — reports `max_iterations_reached`). -/
theorem c10_empty_tree_never_succeeds :
    ∀ (o : Oracle) (tools : Tools) (agent : Option Agent) (n : Nat),
      attemptCompilation o [] = { status := "no_python_files", errors := [] } ∧
      (executeMigration o tools agent n []).finalStatus ≠ "success" := by
  intro o tools agent n
  constructor
  · simp [attemptCompilation]
  · cases n with
    | zero => simp [executeMigration, migrationLoop]
    | succ n =>
      have hIter : executeIteration o tools agent [] =
          ({ compilationStatus := "no_python_files", fixesApplied := 0, toolsUsed := [] },
            ([] : Tree)) := by
        simp [executeIteration, attemptCompilation]
      simp [executeMigration, migrationLoop, hIter]

/-! ## C4 — a zero-fix round stops the run, with status `unknown` -/

/-- C4 counterexample: a round in which every fixing attempt changes zero
files does stop the run without consuming another round, but the final
status is the initial value `unknown` — the string `no_progress` is never
assigned anywhere in the source. -/
theorem c4_zero_fix_round_yields_unknown :
    (executeMigration parenOracle silentTools none 5 [("a.py", "x(")]).finalStatus =
      "unknown" ∧
    (executeMigration parenOracle silentTools none 5 [("a.py", "x(")]).finalStatus ≠
      "no_progress" ∧
    (executeMigration parenOracle silentTools none 5 [("a.py", "x(")]).iterations.length =
      1 := by
  refine ⟨by decide, by decide, by decide⟩

/-- C4 (amended): whenever a round reports a non-`success` compilation
status and `fixes_applied == 0`, the loop terminates right after that round
(no further round is consumed) — but with final status `unknown` (the
initialized value, never reassigned), not `no_progress`. -/
theorem c4_no_progress_round_ends_run :
    ∀ (o : Oracle) (tools : Tools) (agent : Option Agent) (n : Nat) (tree : Tree)
      (acc : List IterationOutcome),
      (executeIteration o tools agent tree).1.compilationStatus ≠ "success" →
      (executeIteration o tools agent tree).1.fixesApplied = 0 →
      migrationLoop o tools agent (n + 1) tree acc =
        { finalStatus := "unknown",
          iterations := ((executeIteration o tools agent tree).1 :: acc).reverse,
          tree := (executeIteration o tools agent tree).2 } := by
  intro o tools agent n tree acc h1 h2
  simp only [migrationLoop]
  rw [if_neg h1, if_pos h2]

/-- C4 witness: a concrete zero-fix round (budget 3 remaining) ends the run
with status `unknown`. -/
theorem c4_witness :
    (executeIteration parenOracle silentTools none [("a.py", "x(")]).1.fixesApplied = 0 ∧
    migrationLoop parenOracle silentTools none 3 [("a.py", "x(")] [] =
      { finalStatus := "unknown",
        iterations := [(executeIteration parenOracle silentTools none [("a.py", "x(")]).1],
        tree := (executeIteration parenOracle silentTools none [("a.py", "x(")]).2 } := by
  refine ⟨by decide, ?_⟩
  rw [c4_no_progress_round_ends_run parenOracle silentTools none 2 [("a.py", "x(")] []
    (by decide) (by decide)]
  rfl

/-! ## C6 — all-valid trees succeed in the first round -/

/-- C6 counterexample: two trees in which every file passes the oracle
(the first vacuously, being empty) but the run does not end with
`success`: the empty tree ends with `unknown` (via `no_python_files`), and
a zero round budget ends with `max_iterations_reached` before any check. -/
theorem c6_empty_tree_and_zero_budget :
    (executeMigration parenOracle silentTools none 5 []).finalStatus = "unknown" ∧
    (executeMigration parenOracle silentTools none 0 [("a.py", "x = 1")]).finalStatus =
      "max_iterations_reached" := by
  refine ⟨by decide, by decide⟩

/-- C6 (amended): for every *non-empty* tree whose files all pass the
oracle, and a round budget of at least one, the run terminates during the
first round with status `success`, zero fixes and zero tool invocations
(the result does not depend on the tools or the agent at all). -/
theorem c6_all_valid_tree_succeeds_first_round :
    ∀ (o : Oracle) (tools : Tools) (agent : Option Agent) (n : Nat) (tree : Tree),
      tree ≠ [] → (∀ p ∈ tree, o.compiles p.2 = true) →
      executeMigration o tools agent (n + 1) tree =
        { finalStatus := "success",
          iterations := [⟨"success", 0, []⟩],
          tree := tree } := by
  intro o tools agent n tree hne hall
  have hcomp : attemptCompilation o tree = { status := "success", errors := [] } := by
    unfold attemptCompilation
    rw [if_neg hne]
    have hnil : tree.filterMap
        (fun p => if o.compiles p.2 then none else some (o.errorText p.1 p.2)) = [] := by
      rw [List.filterMap_eq_nil_iff]
      intro p hp
      simp [hall p hp]
    simp [hnil]
  have hIter : executeIteration o tools agent tree =
      ({ compilationStatus := "success", fixesApplied := 0, toolsUsed := [] }, tree) := by
    unfold executeIteration
    rw [hcomp]
    simp
  simp [executeMigration, migrationLoop, hIter]

/-- C6 witness: a concrete one-file valid tree. -/
theorem c6_witness :
    ([("a.py", "x = 1")] : Tree) ≠ [] ∧
    executeMigration parenOracle silentTools none 5 [("a.py", "x = 1")] =
      { finalStatus := "success",
        iterations := [⟨"success", 0, []⟩],
        tree := [("a.py", "x = 1")] } :=
  ⟨by decide,
   c6_all_valid_tree_succeeds_first_round parenOracle silentTools none 4
     [("a.py", "x = 1")] (by decide) (by decide)⟩

/-! ## C7 — exhausting the round budget -/

/-- C7 counterexample: with a budget of one round, the round counter
reaches the configured maximum with the file still failing the oracle, yet
the final status is `unknown` (the loop broke on the zero-fix round), not
`max_iterations_reached`. -/
theorem c7_last_round_without_progress_is_unknown :
    (executeMigration parenOracle silentTools none 1 [("a.py", "x(")]).finalStatus =
      "unknown" ∧
    (executeMigration parenOracle silentTools none 1 [("a.py", "x(")]).finalStatus ≠
      "max_iterations_reached" := by
  refine ⟨by decide, by decide⟩

/-- When every remaining round reports non-`success` and a non-zero fix
count, the loop consumes all of them and exits through the `for ... else`
branch. -/
theorem migrationLoop_exhausted (o : Oracle) (tools : Tools) (agent : Option Agent) :
    ∀ (n : Nat) (tree : Tree) (acc : List IterationOutcome),
      (∀ k < n,
        (executeIteration o tools agent
          (iterateTree o tools agent k tree)).1.compilationStatus ≠ "success" ∧
        (executeIteration o tools agent
          (iterateTree o tools agent k tree)).1.fixesApplied ≠ 0) →
      (migrationLoop o tools agent n tree acc).finalStatus = "max_iterations_reached" ∧
      (migrationLoop o tools agent n tree acc).tree = iterateTree o tools agent n tree ∧
      (migrationLoop o tools agent n tree acc).iterations.length = acc.length + n := by
  intro n
  induction n with
  | zero =>
    intro tree acc _
    refine ⟨rfl, rfl, ?_⟩
    simp [migrationLoop]
  | succ n ih =>
    intro tree acc h
    have h0 := h 0 (Nat.succ_pos n)
    simp only [iterateTree] at h0
    have hcond : ∀ k < n,
        (executeIteration o tools agent (iterateTree o tools agent k
          (executeIteration o tools agent tree).2)).1.compilationStatus ≠ "success" ∧
        (executeIteration o tools agent (iterateTree o tools agent k
          (executeIteration o tools agent tree).2)).1.fixesApplied ≠ 0 := by
      intro k hk
      have hkk := h (k + 1) (Nat.succ_lt_succ hk)
      simpa [iterateTree] using hkk
    have hrec := ih (executeIteration o tools agent tree).2
      ((executeIteration o tools agent tree).1 :: acc) hcond
    simp only [migrationLoop]
    rw [if_neg h0.1, if_neg h0.2]
    refine ⟨hrec.1, ?_, ?_⟩
    · rw [hrec.2.1]
      rfl
    · rw [hrec.2.2]
      simp only [List.length_cons]
      omega

/-- C7 (amended): if all configured rounds run (each reporting
non-`success` with at least one fix applied), the run terminates with
`max_iterations_reached`, records one `RoundRecord` per round, and the
final output tree (what `_finalize_migrated_files` copies) is the tree
accumulated over all rounds — no rollback to the round 0 content.  A run
whose *last* round applies zero fixes instead ends with status `unknown`
(see the counterexample). -/
theorem c7_exhausted_keeps_accumulated_tree :
    ∀ (o : Oracle) (tools : Tools) (agent : Option Agent) (maxIter : Nat) (tree : Tree),
      (∀ k < maxIter,
        (executeIteration o tools agent
          (iterateTree o tools agent k tree)).1.compilationStatus ≠ "success" ∧
        (executeIteration o tools agent
          (iterateTree o tools agent k tree)).1.fixesApplied ≠ 0) →
      (executeMigration o tools agent maxIter tree).finalStatus =
        "max_iterations_reached" ∧
      (executeMigration o tools agent maxIter tree).tree =
        iterateTree o tools agent maxIter tree ∧
      (executeMigration o tools agent maxIter tree).iterations.length = maxIter ∧
      finalizeMigratedFiles (executeMigration o tools agent maxIter tree).tree =
        iterateTree o tools agent maxIter tree := by
  intro o tools agent maxIter tree h
  have hmain := migrationLoop_exhausted o tools agent maxIter tree [] h
  refine ⟨hmain.1, hmain.2.1, ?_, ?_⟩
  · simpa using hmain.2.2
  · simpa [finalizeMigratedFiles] using hmain.2.1

/-- C7 witness: two rounds, each applying one fix, ending exhausted with
the twice-rewritten tree. -/
theorem c7_witness :
    (∀ k < 2,
      (executeIteration parenOracle growTools none
        (iterateTree parenOracle growTools none k
          [("a.py", "a(")])).1.compilationStatus ≠ "success" ∧
      (executeIteration parenOracle growTools none
        (iterateTree parenOracle growTools none k
          [("a.py", "a(")])).1.fixesApplied ≠ 0) ∧
    (executeMigration parenOracle growTools none 2 [("a.py", "a(")]).finalStatus =
      "max_iterations_reached" ∧
    (executeMigration parenOracle growTools none 2 [("a.py", "a(")]).tree =
      iterateTree parenOracle growTools none 2 [("a.py", "a(")] := by
  refine ⟨by decide, ?_, ?_⟩
  · exact (c7_exhausted_keeps_accumulated_tree parenOracle growTools none 2
      [("a.py", "a(")] (by decide)).1
  · exact (c7_exhausted_keeps_accumulated_tree parenOracle growTools none 2
      [("a.py", "a(")] (by decide)).2.1

/-! ## C5 — an always-failing agent versus no agent at all -/

/-- C5 counterexample: with the agent raising on every call the run repairs
the file through the per-file fallback chain and ends with `success` and a
`fallback_tools` trace entry, while the very same inputs with no agent
configured end with `unknown` and an empty trace — final status and
tool-usage trace both differ. -/
theorem c5_failing_agent_differs_from_no_agent :
    (executeMigration divergeOracle divergeTools (some raisingAgent) 5
      [("a.py", "x(")]).finalStatus = "success" ∧
    (executeMigration divergeOracle divergeTools none 5
      [("a.py", "x(")]).finalStatus = "unknown" ∧
    (executeMigration divergeOracle divergeTools (some raisingAgent) 5
      [("a.py", "x(")]).iterations.map IterationOutcome.toolsUsed ≠
    (executeMigration divergeOracle divergeTools none 5
      [("a.py", "x(")]).iterations.map IterationOutcome.toolsUsed := by
  refine ⟨by decide, by decide, by decide⟩

/-- C5 (amended): when the agent raises on every call, each file of the
tree is routed through the per-file fallback chain
(`_apply_fallback_tools`), with one fix counted per file the chain rewrote
and a `fallback_tools` trace entry per such file; this degraded mode is a
different code path from the no-agent manual fallback (which selects tools
from the error texts and records per-tool file counts), and the two can
produce different final statuses and tool-usage traces. -/
theorem c5_failing_agent_is_per_file_fallback :
    ∀ (o : Oracle) (tools : Tools) (tree : Tree),
      executeWithAgent o tools raisingAgent tree =
        (tree.map (fun p => (p.1, ((applyFallbackTools o tools p.2).content.getD p.2))),
         tree.countP (fun p => ((applyFallbackTools o tools p.2).content.isSome)),
         (tree.filter (fun p => ((applyFallbackTools o tools p.2).content.isSome))).map
           (fun p => ToolUse.agentFallback "fallback_tools" p.1)) := by
  intro o tools tree
  induction tree with
  | nil => rfl
  | cons p rest ih =>
    obtain ⟨name, content⟩ := p
    simp only [executeWithAgent, ih]
    cases hc : (applyFallbackTools o tools content).content with
    | none =>
      simp [agentFileStep, raisingAgent, agentFallbackBranch, hc, List.countP_cons]
    | some c =>
      simp [agentFileStep, raisingAgent, agentFallbackBranch, hc, List.countP_cons,
        Nat.add_comm]

/-! ## C9 — the tools return diagnostic strings and never raise -/

/-- C9: each tool embedding is a total function on its call environment
(the `never raises` half: in the source every `_run` body sits inside a
catch-all `except` and every backend helper converts `TimeoutExpired` and
any other exception into an error triple), and the enumerated failure modes
produce the enumerated diagnostic result strings: empty input, invalid
syntax (PyUpgrade), a missing backend (transparently switching to the
pattern-based approximation), a backend timeout, and an internal exception
reaching the catch-all. -/
theorem c9_tools_return_diagnostics :
    (∀ (env : PyUpgradeEnv), pyUpgradeRun env "" = pyUpgradeInvalidInputMsg) ∧
    (∀ (env : PyUpgradeEnv) (code : String), code ≠ "" → stripString code = "" →
      pyUpgradeRun env code = pyUpgradeEmptyMsg) ∧
    (∀ (env : PyUpgradeEnv) (code m : String), code ≠ "" → stripString code ≠ "" →
      env.unexpected = none → env.parse = some m →
      pyUpgradeRun env code = pyUpgradeSyntaxErrorMsg m) ∧
    (∀ (env : PyUpgradeEnv) (code : String), code ≠ "" → stripString code ≠ "" →
      env.unexpected = none → env.parse = none → env.available = false →
      pyUpgradeRun env code = pyUpgradeFallbackMsg (stripString code) env.fallback) ∧
    (∀ (env : PyUpgradeEnv) (code : String), code ≠ "" → stripString code ≠ "" →
      env.unexpected = none → env.parse = none → env.available = true →
      env.backend.2.2 = "pyupgrade command timed out" →
      pyUpgradeRun env code = pyUpgradeBackendErrorMsg "pyupgrade command timed out") ∧
    (∀ (env : PyUpgradeEnv) (code m : String), code ≠ "" → stripString code ≠ "" →
      env.unexpected = some m → pyUpgradeRun env code = pyUpgradeCatchAllMsg m) ∧
    (∀ (env : Python2To3Env), python2To3Run env "" = python2To3InvalidInputMsg) ∧
    (∀ (env : Python2To3Env) (code : String), code ≠ "" → stripString code = "" →
      python2To3Run env code = python2To3EmptyMsg) ∧
    (∀ (env : Python2To3Env) (code m : String), code ≠ "" → stripString code ≠ "" →
      env.unexpected = some m → python2To3Run env code = python2To3CatchAllMsg m) ∧
    (∀ (env : Python2To3Env) (code : String), code ≠ "" → stripString code ≠ "" →
      env.unexpected = none → env.detected ≠ [] →
      env.lib2to3.2.2 = "lib2to3 not available" →
      python2To3Run env code =
        (if env.patternMigration.2 ≠ [] then
          python2To3PatternCompleteMsg env.detected env.patternMigration.1
            env.patternMigration.2
        else python2To3AnalysisMsg env.detected (stripString code))) ∧
    (∀ (env : ModernizeEnv), modernizeRun env "" = modernizeInvalidInputMsg) ∧
    (∀ (env : ModernizeEnv) (code : String), code ≠ "" → stripString code = "" →
      modernizeRun env code = modernizeEmptyMsg) ∧
    (∀ (env : ModernizeEnv) (code m : String), code ≠ "" → stripString code ≠ "" →
      env.unexpected = some m → modernizeRun env code = modernizeCatchAllMsg m) ∧
    (∀ (env : ModernizeEnv) (code : String), code ≠ "" → stripString code ≠ "" →
      env.unexpected = none → env.available = false →
      modernizeRun env code =
        (if env.patternResult.2 ≠ [] then
          modernizeFallbackAppliedMsg env.issues env.patternResult.1 env.patternResult.2
        else modernizeFallbackNoChangeMsg (stripString code))) ∧
    (∀ (env : ModernizeEnv) (code : String), code ≠ "" → stripString code ≠ "" →
      env.unexpected = none → env.available = true →
      env.backend.2.2 = "modernize command timed out" →
      modernizeRun env code =
        (if env.patternResult.2 ≠ [] then
          modernizePatternAppliedMsg env.issues env.patternResult.1 env.patternResult.2
        else modernizeAnalysisNoFixMsg (stripString code))) := by
  refine ⟨?_, ?_, ?_, ?_, ?_, ?_, ?_, ?_, ?_, ?_, ?_, ?_, ?_, ?_, ?_⟩
  · intro env
    simp [pyUpgradeRun]
  · intro env code h1 h2
    simp [pyUpgradeRun, h1, h2]
  · intro env code m h1 h2 h3 h4
    simp [pyUpgradeRun, h1, h2, h3, h4]
  · intro env code h1 h2 h3 h4 h5
    simp [pyUpgradeRun, h1, h2, h3, h4, h5]
  · intro env code h1 h2 h3 h4 h5 h6
    simp [pyUpgradeRun, h1, h2, h3, h4, h5, h6]
  · intro env code m h1 h2 h3
    simp [pyUpgradeRun, h1, h2, h3]
  · intro env
    simp [python2To3Run]
  · intro env code h1 h2
    simp [python2To3Run, h1, h2]
  · intro env code m h1 h2 h3
    simp [python2To3Run, h1, h2, h3]
  · intro env code h1 h2 h3 h4 h5
    simp [python2To3Run, h1, h2, h3, h4, h5]
  · intro env
    simp [modernizeRun]
  · intro env code h1 h2
    simp [modernizeRun, h1, h2]
  · intro env code m h1 h2 h3
    simp [modernizeRun, h1, h2, h3]
  · intro env code h1 h2 h3 h4
    simp [modernizeRun, h1, h2, h3, h4]
  · intro env code h1 h2 h3 h4 h5
    simp [modernizeRun, h1, h2, h3, h4, h5]

/-- C9 witness: concrete error-mode calls for each tool. -/
theorem c9_witness :
    pyUpgradeRun pyEnvTimeout "x = 1" =
      pyUpgradeBackendErrorMsg "pyupgrade command timed out" ∧
    pyUpgradeRun pyEnvNoBackend "x = 1" =
      pyUpgradeFallbackMsg "x = 1" pyEnvNoBackend.fallback ∧
    python2To3Run p23EnvNoLib "print 1" =
      python2To3PatternCompleteMsg ["print_statement"] "print(1)"
        ["Converted print statement to print() function"] ∧
    modernizeRun modEnvCrash "x = 1" = modernizeCatchAllMsg "boom" ∧
    python2To3Run p23EnvNoLib "" = python2To3InvalidInputMsg := by
  refine ⟨?_, ?_, ?_, ?_, ?_⟩
  · exact c9_tools_return_diagnostics.2.2.2.2.1 pyEnvTimeout "x = 1" (by decide)
      (by decide) rfl rfl rfl rfl
  · exact c9_tools_return_diagnostics.2.2.2.1 pyEnvNoBackend "x = 1" (by decide)
      (by decide) rfl rfl rfl
  · have h := c9_tools_return_diagnostics.2.2.2.2.2.2.2.2.2.1 p23EnvNoLib "print 1"
      (by decide) (by decide) rfl (by decide) rfl
    simpa using h
  · exact c9_tools_return_diagnostics.2.2.2.2.2.2.2.2.2.2.2.2.1 modEnvCrash "x = 1" "boom"
      (by decide) (by decide) rfl
  · exact c9_tools_return_diagnostics.2.2.2.2.2.2.1 p23EnvNoLib

end PyUpgrader
